import Mathlib

/-!
Shallow embedding of the AHP computation engine of `src/google-apps-script.js`.

JavaScript numbers are modelled as real numbers (`ℝ`): the source performs
field arithmetic and `Math.pow(x, 1/n)` (an n-th root), which is embedded as
`Real.rpow`.  Division is Lean's total real division; places where the source
can divide zero by zero (producing `NaN` in JavaScript, while Lean's
convention yields `0`) are called out in comments where they matter.

Mutable arrays are embedded by explicit state passing: the matrix under
construction is a function `ℕ → ℕ → Option ℝ` (`none` is the `null` marker
of the source), and each `matrix[i][j] = v` assignment is a functional
update (`writeCell`).
-/

/-- One judgment record `{ left, right, ahp_ratio_aij }` from a submission's
`comparisons` block.  A `null` or absent `ahp_ratio_aij` is `none`. -/
structure Judgment where
  left : String
  right : String
  ahp_ratio_aij : Option ℝ

/-- The fixed Random Index table of the source (`const RI = {1: 0, 2: 0, ...}`):
a partial map from matrix order to the Saaty random index; keys outside
1..16 are absent (`undefined` in JavaScript). -/
noncomputable def RItable (n : ℕ) : Option ℝ :=
  match n with
  | 1 => some 0
  | 2 => some 0
  | 3 => some 0.58
  | 4 => some 0.90
  | 5 => some 1.12
  | 6 => some 1.24
  | 7 => some 1.32
  | 8 => some 1.41
  | 9 => some 1.45
  | 10 => some 1.49
  | 11 => some 1.51
  | 12 => some 1.48
  | 13 => some 1.56
  | 14 => some 1.57
  | 15 => some 1.59
  | 16 => some 1.60
  | _ => none

/-- JavaScript's `x || d` on a possibly-undefined number `x`: the default `d`
is taken when `x` is `undefined` or when `x` is `0` (zero is falsy in
JavaScript).  Embeds the source's `const ri = RI[n] || 1.5`. -/
noncomputable def jsOr (x : Option ℝ) (d : ℝ) : ℝ :=
  match x with
  | none => d
  | some v => if v = 0 then d else v

/-- JavaScript's `Math.round(x * 10000) / 10000` (round half toward +∞),
used at the reporting boundary of `calculateAHP`. -/
noncomputable def jsRound4 (x : ℝ) : ℝ :=
  (⌊x * 10000 + 1 / 2⌋ : ℤ) / 10000

/-- JavaScript's `Array.prototype.indexOf`: the index of the first occurrence
of `x` in `l`, or `-1` when `x` does not occur. -/
def jsIndexOf (l : List String) (x : String) : ℤ :=
  if x ∈ l then (l.indexOf x : ℤ) else -1

/-- The item-identifier list of `calculateAHP`:
`[...new Set(comparisons.flatMap(c => [c.left, c.right]))].sort()` — the
distinct identifiers referenced by the judgments, sorted ascending. -/
def sortedIds (comps : List Judgment) : List String :=
  ((comps.flatMap fun c => [c.left, c.right]).toFinset).sort (· ≤ ·)

/-- The initial matrix state of `buildMatrix`: `1` on the diagonal, the
`null` marker elsewhere. -/
noncomputable def initState : ℕ → ℕ → Option ℝ :=
  fun i j => if i = j then some 1 else none

/-- A single assignment `matrix[a][b] = v` on the matrix state. -/
def writeCell (st : ℕ → ℕ → Option ℝ) (a b : ℕ) (v : ℝ) : ℕ → ℕ → Option ℝ :=
  fun i j => if i = a ∧ j = b then some v else st i j

/-- One iteration of the `for (const comp of comparisons)` loop of
`buildMatrix`: when both identifiers are found and the ratio is non-null,
set `matrix[i][j] = ratio` and `matrix[j][i] = 1/ratio`.  Note that the
source checks only `ratio != null` — there is no positivity check. -/
noncomputable def buildStep (ids : List String) (st : ℕ → ℕ → Option ℝ)
    (c : Judgment) : ℕ → ℕ → Option ℝ :=
  match c.ahp_ratio_aij with
  | none => st
  | some v =>
    let i := jsIndexOf ids c.left
    let j := jsIndexOf ids c.right
    if 0 ≤ i ∧ 0 ≤ j then
      writeCell (writeCell st i.toNat j.toNat v) j.toNat i.toNat (1 / v)
    else st

/-- `buildMatrix(ids, comparisons)`: run all judgments over the initial
state, then fill every remaining `null` cell with `1`. -/
noncomputable def buildMatrix (ids : List String) (comps : List Judgment) :
    ℕ → ℕ → ℝ :=
  fun i j => ((comps.foldl (buildStep ids) initState) i j).getD 1

/-- The row geometric means of `calculateWeights`:
`Math.pow(product of row i, 1 / n)`, embedded with `Real.rpow`. -/
noncomputable def geoMeansF (m : ℕ → ℕ → ℝ) (n : ℕ) : ℕ → ℝ :=
  fun i => (∏ j in Finset.range n, m i j) ^ ((1 : ℝ) / (n : ℝ))

/-- `calculateWeights(matrix, n)`: normalize the row geometric means by their
sum. -/
noncomputable def calculateWeights (m : ℕ → ℕ → ℝ) (n : ℕ) : ℕ → ℝ :=
  fun i => geoMeansF m n i / ∑ k in Finset.range n, geoMeansF m n k

/-- The matrix–vector product `Aw` of `calculateCR`. -/
noncomputable def AwF (m : ℕ → ℕ → ℝ) (w : ℕ → ℝ) (n : ℕ) : ℕ → ℝ :=
  fun i => ∑ j in Finset.range n, m i j * w j

/-- The record `{ lambdaMax, CI, CR }` returned by `calculateCR`. -/
structure CRResult where
  lambdaMax : ℝ
  CI : ℝ
  CR : ℝ

/-- `calculateCR(matrix, weights, n)`.  `CI = (lambdaMax - n) / (n - 1)` is
the source expression with no special case: for `n = 1` it is the division
`0 / 0` (`NaN` in JavaScript; Lean's total division yields `0`).
`ri = RI[n] || 1.5` and `CR = ri > 0 ? CI / ri : 0`. -/
noncomputable def calculateCR (m : ℕ → ℕ → ℝ) (w : ℕ → ℝ) (n : ℕ) : CRResult :=
  let lM := (∑ i in Finset.range n, AwF m w n i / w i) / (n : ℝ)
  let ci := (lM - (n : ℝ)) / ((n : ℝ) - 1)
  let ri := jsOr (RItable n) 1.5
  ⟨lM, ci, if ri > 0 then ci / ri else 0⟩

/-- The per-group result assembled by the loop body of `calculateAHP`:
`weights` is keyed by item identifier and rounded to 4 decimal places, the
three consistency figures are rounded, and `consistent` compares the
unrounded `CR` against `0.1`. -/
structure SectionResult where
  n : ℕ
  weights : List (String × ℝ)
  lambdaMax : ℝ
  CI : ℝ
  CR : ℝ
  consistent : Prop

/-- The unrounded `CR` the loop body of `calculateAHP` computes for one
group (the composition matrix → weights → `calculateCR`). -/
noncomputable def rawCR (comps : List Judgment) : ℝ :=
  (calculateCR (buildMatrix (sortedIds comps) comps)
    (calculateWeights (buildMatrix (sortedIds comps) comps) (sortedIds comps).length)
    (sortedIds comps).length).CR

/-- The loop body of `calculateAHP` for one non-empty group. -/
noncomputable def evalSection (comps : List Judgment) : SectionResult :=
  let ids := sortedIds comps
  let n := ids.length
  let matrix := buildMatrix ids comps
  let weights := calculateWeights matrix n
  let r := calculateCR matrix weights n
  ⟨n, ids.enum.map fun p => (p.2, jsRound4 (weights p.1)),
    jsRound4 r.lambdaMax, jsRound4 r.CI, jsRound4 r.CR, r.CR < 0.1⟩

/-- The fixed, ordered list of recognized group names of `calculateAHP`. -/
def sections : List String := ["dimensions", "A", "B", "C", "D"]

/-- `calculateAHP(data)` given a present `comparisons` block: iterate the
recognized group names in order; skip a group whose judgment list is absent
(`undefined`, falsy) or empty; otherwise evaluate it.  The result object is
embedded as an association list in insertion order. -/
noncomputable def calculateAHP (comparisons : String → Option (List Judgment)) :
    List (String × SectionResult) :=
  sections.filterMap fun s =>
    match comparisons s with
    | none => none
    | some cs => if cs.length = 0 then none else some (s, evalSection cs)

/-- `calculateAHP` on a whole submission whose `comparisons` block may be
missing.  When `data.comparisons` is `undefined`, the first property access
`data.comparisons[section]` throws a `TypeError`, which propagates out of
`calculateAHP` (caught only by `doPost`, which then returns an error payload
and no results); the thrown exception is embedded as `Except.error`. -/
noncomputable def calculateAHPChecked
    (comparisons : Option (String → Option (List Judgment))) :
    Except String (List (String × SectionResult)) :=
  match comparisons with
  | none => Except.error "TypeError: cannot read properties of undefined"
  | some f => Except.ok (calculateAHP f)

/-- Two judgments referring to the same unordered item pair. -/
def sameUPair (c c' : Judgment) : Prop :=
  (c.left = c'.left ∧ c.right = c'.right) ∨
  (c.left = c'.right ∧ c.right = c'.left)

/-- The reciprocity invariant maintained by the judgment loop of
`buildMatrix` on well-formed judgments: the diagonal stays `1`, and
off-diagonal cells are unset in pairs or set in pairs `v`, `1/v`. -/
def RecipState (st : ℕ → ℕ → Option ℝ) : Prop :=
  (∀ i, st i i = some 1) ∧
  ∀ i j, i ≠ j →
    (st i j = none ∧ st j i = none) ∨
    ∃ v, v ≠ 0 ∧ st i j = some v ∧ st j i = some (1 / v)

-- Concrete judgment lists used by the claim theorems.

/-- A group with a single zero-ratio judgment. -/
noncomputable def csZero : List Judgment := [⟨"A", "B", some 0⟩]

/-- Two conflicting judgments for the same pair, in submission order. -/
noncomputable def csDup₁ : List Judgment := [⟨"A", "B", some 2⟩, ⟨"A", "B", some 3⟩]

/-- The same two conflicting judgments, permuted. -/
noncomputable def csDup₂ : List Judgment := [⟨"A", "B", some 3⟩, ⟨"A", "B", some 2⟩]

/-- The "dimensions" scenario of the spec: a fully consistent 1-2-4 ratio
set over items A, B, C. -/
noncomputable def csDim : List Judgment :=
  [⟨"A", "B", some 2⟩, ⟨"A", "C", some 4⟩, ⟨"B", "C", some 2⟩]

/-- A 3-item group tuned so that the unrounded `CR` lies in
`[0.09995, 0.1)`: the ratio is `(7017/5000)^3`, making the row geometric
means rational. -/
noncomputable def csBorder : List Judgment :=
  [⟨"A", "B", some (345505073913 / 125000000000)⟩,
   ⟨"A", "C", some 1⟩, ⟨"B", "C", some 1⟩]

/-- Two judgments on distinct unordered pairs, in one order. -/
noncomputable def csPerm₁ : List Judgment :=
  [⟨"A", "B", some 2⟩, ⟨"A", "C", some 4⟩]

/-- The same two judgments, permuted. -/
noncomputable def csPerm₂ : List Judgment :=
  [⟨"A", "C", some 4⟩, ⟨"A", "B", some 2⟩]

/-- A submission's `comparisons` block carrying one group. -/
noncomputable def oneGroup : String → Option (List Judgment) :=
  fun s => if s = "dimensions" then some [⟨"A", "B", some 2⟩] else none

-- Helper lemmas.

theorem string_le_of_toList {a b : String} (h : a.toList ≤ b.toList) : a ≤ b :=
  String.le_iff_toList_le.mpr h

theorem sortedIds_eq {cs : List Judgment} {L : List String}
    (h : (cs.flatMap fun c => [c.left, c.right]).toFinset = L.toFinset)
    (hs : L.Sorted (· ≤ ·)) (hn : L.Nodup) : sortedIds cs = L := by
  rw [sortedIds, h]
  exact (List.toFinset_sort _ hn).mpr hs

theorem sortedIds_csZero : sortedIds csZero = ["A", "B"] := by
  apply sortedIds_eq
  · rfl
  · simp [List.sorted_cons]
    decide
  · decide

theorem buildMatrix_csZero_01 :
    buildMatrix (sortedIds csZero) csZero 0 1 = 0 := by
  rw [sortedIds_csZero]
  have hA : jsIndexOf ["A", "B"] "A" = 0 := by decide
  have hB : jsIndexOf ["A", "B"] "B" = 1 := by decide
  simp [buildMatrix, csZero, buildStep, hA, hB, writeCell, initState]

theorem jsIndexOf_nonneg_iff (l : List String) (x : String) :
    0 ≤ jsIndexOf l x ↔ x ∈ l := by
  unfold jsIndexOf
  split
  · simpa
  · simpa

theorem jsIndexOf_toNat_inj {l : List String} {a b : String}
    (ha : a ∈ l) (hb : b ∈ l)
    (h : (jsIndexOf l a).toNat = (jsIndexOf l b).toNat) : a = b := by
  unfold jsIndexOf at h
  rw [if_pos ha, if_pos hb, Int.toNat_natCast, Int.toNat_natCast] at h
  exact (List.indexOf_inj ha hb).mp h

theorem buildStep_none {ids : List String} {st : ℕ → ℕ → Option ℝ}
    {c : Judgment} (h : c.ahp_ratio_aij = none) : buildStep ids st c = st := by
  unfold buildStep
  rw [h]

theorem buildStep_some {ids : List String} {st : ℕ → ℕ → Option ℝ}
    {c : Judgment} {v : ℝ} (h : c.ahp_ratio_aij = some v) :
    buildStep ids st c =
      if 0 ≤ jsIndexOf ids c.left ∧ 0 ≤ jsIndexOf ids c.right then
        writeCell
          (writeCell st (jsIndexOf ids c.left).toNat (jsIndexOf ids c.right).toNat v)
          (jsIndexOf ids c.right).toNat (jsIndexOf ids c.left).toNat (1 / v)
      else st := by
  unfold buildStep
  rw [h]

theorem recipState_init : RecipState initState := by
  constructor
  · intro i
    simp [initState]
  · intro i j hij
    left
    constructor
    · simp [initState, hij]
    · simp [initState, Ne.symm hij]

theorem recipState_step (ids : List String) (c : Judgment)
    (hlr : c.left ≠ c.right)
    (hv : ∀ v, c.ahp_ratio_aij = some v → v ≠ 0)
    (st : ℕ → ℕ → Option ℝ) (h : RecipState st) :
    RecipState (buildStep ids st c) := by
  cases hc : c.ahp_ratio_aij with
  | none =>
    rw [buildStep_none hc]
    exact h
  | some v =>
    rw [buildStep_some hc]
    by_cases hg : 0 ≤ jsIndexOf ids c.left ∧ 0 ≤ jsIndexOf ids c.right
    · rw [if_pos hg]
      have hmL : c.left ∈ ids := (jsIndexOf_nonneg_iff ids c.left).mp hg.1
      have hmR : c.right ∈ ids := (jsIndexOf_nonneg_iff ids c.right).mp hg.2
      set a := (jsIndexOf ids c.left).toNat with ha
      set b := (jsIndexOf ids c.right).toNat with hb
      have hab : a ≠ b := fun e => hlr (jsIndexOf_toNat_inj hmL hmR e)
      have hv0 : v ≠ 0 := hv v hc
      constructor
      · intro i
        have h1 : ¬(i = b ∧ i = a) := fun e => hab (e.2 ▸ e.1 ▸ rfl)
        have h2 : ¬(i = a ∧ i = b) := fun e => hab (e.1 ▸ e.2 ▸ rfl)
        simp only [writeCell, if_neg h1, if_neg h2]
        exact h.1 i
      · intro i j hij
        by_cases h1 : i = a ∧ j = b
        · right
          refine ⟨v, hv0, ?_, ?_⟩
          · have hx : ¬(i = b ∧ j = a) := fun e => hab (h1.1.symm.trans e.1)
            simp only [writeCell, if_neg hx, if_pos h1]
          · have hy : j = b ∧ i = a := ⟨h1.2, h1.1⟩
            simp only [writeCell, if_pos hy]
        · by_cases h2 : i = b ∧ j = a
          · right
            refine ⟨1 / v, one_div_ne_zero hv0, ?_, ?_⟩
            · simp only [writeCell, if_pos h2]
            · have hx : ¬(j = b ∧ i = a) := fun e => hab (e.2.symm.trans h2.1)
              have hy : j = a ∧ i = b := ⟨h2.2, h2.1⟩
              simp only [writeCell, if_neg hx, if_pos hy, one_div_one_div]
          · have h3 : ¬(j = b ∧ i = a) := fun e => h1 ⟨e.2, e.1⟩
            have h4 : ¬(j = a ∧ i = b) := fun e => h2 ⟨e.2, e.1⟩
            simp only [writeCell, if_neg h1, if_neg h2, if_neg h3, if_neg h4]
            exact h.2 i j hij
    · rw [if_neg hg]
      exact h

theorem recipState_fold (ids : List String) (comps : List Judgment)
    (hlr : ∀ c ∈ comps, c.left ≠ c.right)
    (hv : ∀ c ∈ comps, ∀ v, c.ahp_ratio_aij = some v → v ≠ 0)
    (st : ℕ → ℕ → Option ℝ) (h : RecipState st) :
    RecipState (comps.foldl (buildStep ids) st) := by
  induction comps generalizing st with
  | nil => exact h
  | cons c cs ih =>
    exact ih (fun c' h' => hlr c' (List.mem_cons_of_mem _ h'))
      (fun c' h' => hv c' (List.mem_cons_of_mem _ h'))
      (buildStep ids st c)
      (recipState_step ids c (hlr c (List.mem_cons_self _ _))
        (hv c (List.mem_cons_self _ _)) st h)

/-- C1 (counterexample): the source's `buildMatrix` does not discard a
judgment whose ratio is `0` (its guard is only `ratio != null`): for the
single-judgment group `[(A, B, 0)]`, the cell `matrix[0][1]` holds `0`, not
the default `1` the claim asserts. -/
theorem C1_counterexample :
    buildMatrix (sortedIds csZero) csZero 0 1 = 0 ∧ (0 : ℝ) ≠ 1 :=
  ⟨buildMatrix_csZero_01, by norm_num⟩

/-- C1 (amended): only a `null` ratio (or an identifier that is not found)
makes `buildMatrix` skip a judgment.  A judgment with a zero or negative
ratio is applied: the cell gets the ratio itself and the opposite cell gets
`1/ratio` — neither cell defaults to `1` (for the zero ratio, JavaScript
stores `Infinity` in the opposite cell; its idealization here is `1/0`). -/
theorem C1_amended (ids : List String) (l r : String) (v : ℝ)
    (hl : l ∈ ids) (hr : r ∈ ids) (hlr : l ≠ r) (hv : v ≤ 0) :
    buildMatrix ids [⟨l, r, some v⟩] (ids.indexOf l) (ids.indexOf r) = v ∧
    buildMatrix ids [⟨l, r, some v⟩] (ids.indexOf r) (ids.indexOf l) = 1 / v := by
  have hil : jsIndexOf ids l = (ids.indexOf l : ℤ) := if_pos hl
  have hir : jsIndexOf ids r = (ids.indexOf r : ℤ) := if_pos hr
  have hne : ids.indexOf l ≠ ids.indexOf r :=
    fun e => hlr ((List.indexOf_inj hl hr).mp e)
  have hg : 0 ≤ jsIndexOf ids l ∧ 0 ≤ jsIndexOf ids r := by
    rw [hil, hir]
    exact ⟨Int.natCast_nonneg _, Int.natCast_nonneg _⟩
  constructor
  · show ((([⟨l, r, some v⟩] : List Judgment).foldl (buildStep ids) initState)
      (ids.indexOf l) (ids.indexOf r)).getD 1 = v
    rw [List.foldl_cons, List.foldl_nil, buildStep_some rfl]
    dsimp only
    rw [if_pos hg, hil, hir, Int.toNat_natCast, Int.toNat_natCast]
    have h1 : ¬(ids.indexOf l = ids.indexOf r ∧ ids.indexOf r = ids.indexOf l) :=
      fun e => hne e.1
    simp [writeCell, h1]
  · show ((([⟨l, r, some v⟩] : List Judgment).foldl (buildStep ids) initState)
      (ids.indexOf r) (ids.indexOf l)).getD 1 = 1 / v
    rw [List.foldl_cons, List.foldl_nil, buildStep_some rfl]
    dsimp only
    rw [if_pos hg, hil, hir, Int.toNat_natCast, Int.toNat_natCast]
    simp [writeCell]

/-- C1 (witness): the amended statement instantiated at the zero-ratio
judgment `(A, B, 0)` over the item list `["A", "B"]`. -/
theorem C1_amended_witness :
    buildMatrix ["A", "B"] [⟨"A", "B", some 0⟩]
      (["A", "B"].indexOf "A") (["A", "B"].indexOf "B") = 0 ∧
    buildMatrix ["A", "B"] [⟨"A", "B", some 0⟩]
      (["A", "B"].indexOf "B") (["A", "B"].indexOf "A") = 1 / 0 :=
  C1_amended ["A", "B"] "A" "B" 0 (by decide) (by decide) (by decide) le_rfl

/-- C3 (counterexample): for the judgment list `[(A, B, 0)]` the matrix
built by `buildMatrix` violates the reciprocal invariant: the product
`matrix[0][1] * matrix[1][0]` is `0`, not `1` (in JavaScript the two cells
are `0` and `Infinity` and the product is `NaN`). -/
theorem C3_counterexample :
    buildMatrix (sortedIds csZero) csZero 0 1 *
      buildMatrix (sortedIds csZero) csZero 1 0 = 0 ∧ (0 : ℝ) ≠ 1 := by
  refine ⟨?_, by norm_num⟩
  rw [buildMatrix_csZero_01, zero_mul]

/-- C3 (amended): for every judgment list in which each judgment compares
two distinct items and every non-null ratio is strictly positive, the built
matrix has `1` on the diagonal and satisfies the reciprocal invariant
`matrix[i][j] * matrix[j][i] = 1` for all index pairs. -/
theorem C3_amended (ids : List String) (comps : List Judgment)
    (hlr : ∀ c ∈ comps, c.left ≠ c.right)
    (hpos : ∀ c ∈ comps, ∀ v, c.ahp_ratio_aij = some v → 0 < v) :
    (∀ i, buildMatrix ids comps i i = 1) ∧
    (∀ i j, buildMatrix ids comps i j * buildMatrix ids comps j i = 1) := by
  have h := recipState_fold ids comps hlr
    (fun c hc v hv' => ne_of_gt (hpos c hc v hv')) initState recipState_init
  constructor
  · intro i
    unfold buildMatrix
    rw [h.1 i]
    rfl
  · intro i j
    by_cases hij : i = j
    · subst hij
      unfold buildMatrix
      rw [h.1 i]
      norm_num
    · rcases h.2 i j hij with ⟨h1, h2⟩ | ⟨v, hv0, h1, h2⟩
      · unfold buildMatrix
        rw [h1, h2]
        norm_num
      · unfold buildMatrix
        rw [h1, h2]
        simp only [Option.getD_some]
        field_simp

/-- C3 (witness): the amended invariant instantiated at the group
`[(A, B, 2)]` over the item list `["A", "B"]`. -/
theorem C3_amended_witness :
    buildMatrix ["A", "B"] [⟨"A", "B", some 2⟩] 0 0 = 1 ∧
    buildMatrix ["A", "B"] [⟨"A", "B", some 2⟩] 0 1 *
      buildMatrix ["A", "B"] [⟨"A", "B", some 2⟩] 1 0 = 1 := by
  have h := C3_amended ["A", "B"] [⟨"A", "B", some 2⟩]
    (by intro c hc; rw [List.mem_singleton] at hc; subst hc; decide)
    (by
      intro c hc v hv
      rw [List.mem_singleton] at hc
      subst hc
      cases hv
      norm_num)
  exact ⟨h.1 0, h.2 0 1⟩

theorem geoMeansF_pos {m : ℕ → ℕ → ℝ} {n : ℕ}
    (hpos : ∀ i ∈ Finset.range n, ∀ j ∈ Finset.range n, 0 < m i j)
    {i : ℕ} (hi : i ∈ Finset.range n) : 0 < geoMeansF m n i :=
  Real.rpow_pos_of_pos (Finset.prod_pos (hpos i hi)) _

theorem geoSum_pos {m : ℕ → ℕ → ℝ} {n : ℕ} (hn : 1 ≤ n)
    (hpos : ∀ i ∈ Finset.range n, ∀ j ∈ Finset.range n, 0 < m i j) :
    0 < ∑ k in Finset.range n, geoMeansF m n k :=
  Finset.sum_pos (fun i hi => geoMeansF_pos hpos hi)
    (Finset.nonempty_range_iff.mpr (by omega))

theorem calculateWeights_pos {m : ℕ → ℕ → ℝ} {n : ℕ} (hn : 1 ≤ n)
    (hpos : ∀ i ∈ Finset.range n, ∀ j ∈ Finset.range n, 0 < m i j)
    {i : ℕ} (hi : i ∈ Finset.range n) : 0 < calculateWeights m n i :=
  div_pos (geoMeansF_pos hpos hi) (geoSum_pos hn hpos)

theorem calculateWeights_sum {m : ℕ → ℕ → ℝ} {n : ℕ} (hn : 1 ≤ n)
    (hpos : ∀ i ∈ Finset.range n, ∀ j ∈ Finset.range n, 0 < m i j) :
    ∑ i in Finset.range n, calculateWeights m n i = 1 := by
  unfold calculateWeights
  rw [← Finset.sum_div]
  exact div_self (ne_of_gt (geoSum_pos hn hpos))

/-- C4: for every matrix of order `n ≥ 1` whose entries are strictly
positive, `calculateWeights` returns weights that sum to exactly `1` (hence
within the claimed `1e-9` tolerance), are each strictly positive, and are
`[1.0]` when `n = 1`. -/
theorem C4_weights (n : ℕ) (m : ℕ → ℕ → ℝ) (hn : 1 ≤ n)
    (hpos : ∀ i ∈ Finset.range n, ∀ j ∈ Finset.range n, 0 < m i j) :
    (∑ i in Finset.range n, calculateWeights m n i = 1) ∧
    (∀ i ∈ Finset.range n, 0 < calculateWeights m n i) ∧
    (n = 1 → calculateWeights m n 0 = 1) := by
  refine ⟨calculateWeights_sum hn hpos, fun i hi => calculateWeights_pos hn hpos hi, ?_⟩
  intro h1
  subst h1
  unfold calculateWeights
  rw [Finset.sum_range_one]
  exact div_self (ne_of_gt (geoMeansF_pos hpos (by norm_num)))

/-- C4 (witness): the weight properties instantiated at the trivial
one-by-one all-ones matrix. -/
theorem C4_weights_witness :
    (∑ i in Finset.range 1, calculateWeights (fun _ _ => (1 : ℝ)) 1 i = 1) ∧
    (∀ i ∈ Finset.range 1, 0 < calculateWeights (fun _ _ => (1 : ℝ)) 1 i) ∧
    (1 = 1 → calculateWeights (fun _ _ => (1 : ℝ)) 1 0 = 1) :=
  C4_weights 1 (fun _ _ => 1) le_rfl (by intro i hi j hj; norm_num)

theorem two_le_add_of_mul_eq_one {x y : ℝ} (hx : 0 < x) (hy : 0 < y)
    (hxy : x * y = 1) : 2 ≤ x + y := by
  nlinarith [sq_nonneg (x - y), sq_nonneg (x + y)]

theorem lambda_sum_ge {n : ℕ} {m : ℕ → ℕ → ℝ} {w : ℕ → ℝ}
    (hpos : ∀ i ∈ Finset.range n, ∀ j ∈ Finset.range n, 0 < m i j)
    (hrec : ∀ i ∈ Finset.range n, ∀ j ∈ Finset.range n, m i j * m j i = 1)
    (hw : ∀ i ∈ Finset.range n, 0 < w i) :
    (n : ℝ) * n ≤ ∑ i in Finset.range n, AwF m w n i / w i := by
  have hF : ∀ i ∈ Finset.range n,
      AwF m w n i / w i = ∑ j in Finset.range n, m i j * w j / w i := by
    intro i _
    unfold AwF
    rw [Finset.sum_div]
  rw [Finset.sum_congr rfl hF]
  have key : ∀ i ∈ Finset.range n, ∀ j ∈ Finset.range n,
      2 ≤ m i j * w j / w i + m j i * w i / w j := by
    intro i hi j hj
    have hwi := hw i hi
    have hwj := hw j hj
    apply two_le_add_of_mul_eq_one
      (div_pos (mul_pos (hpos i hi j hj) hwj) hwi)
      (div_pos (mul_pos (hpos j hj i hi) hwi) hwj)
    have hr := hrec i hi j hj
    field_simp
    linear_combination w i * w j * hr
  have swap : ∑ i in Finset.range n, ∑ j in Finset.range n, m i j * w j / w i
      = ∑ i in Finset.range n, ∑ j in Finset.range n, m j i * w i / w j :=
    Finset.sum_comm
  have two_T : 2 * ∑ i in Finset.range n, ∑ j in Finset.range n, m i j * w j / w i
      = ∑ i in Finset.range n, ∑ j in Finset.range n,
          (m i j * w j / w i + m j i * w i / w j) := by
    rw [two_mul]
    nth_rewrite 2 [swap]
    rw [← Finset.sum_add_distrib]
    exact Finset.sum_congr rfl fun i _ => (Finset.sum_add_distrib).symm
  have lower : (n : ℝ) * n * 2
      ≤ ∑ i in Finset.range n, ∑ j in Finset.range n,
          (m i j * w j / w i + m j i * w i / w j) := by
    have hconst : ∑ _i in Finset.range n, ∑ _j in Finset.range n, (2 : ℝ)
        = (n : ℝ) * n * 2 := by
      simp [Finset.sum_const, Finset.card_range]
      ring
    rw [← hconst]
    exact Finset.sum_le_sum fun i hi => Finset.sum_le_sum fun j hj => key i hi j hj
  linarith

theorem jsOr_none (d : ℝ) : jsOr none d = d := rfl

theorem jsOr_some (v d : ℝ) : jsOr (some v) d = if v = 0 then d else v := rfl

theorem jsOr_RI_pos (k : ℕ) : 0 < jsOr (RItable k) 1.5 := by
  unfold RItable
  split <;>
    first
      | (rw [jsOr_none]; norm_num)
      | (rw [jsOr_some, if_pos rfl]; norm_num)
      | (rw [jsOr_some, if_neg (by norm_num)]; norm_num)

theorem calculateCR_lambdaMax_eq (m : ℕ → ℕ → ℝ) (w : ℕ → ℝ) (n : ℕ) :
    (calculateCR m w n).lambdaMax
      = (∑ i in Finset.range n, AwF m w n i / w i) / (n : ℝ) := rfl

theorem calculateCR_CI_eq (m : ℕ → ℕ → ℝ) (w : ℕ → ℝ) (n : ℕ) :
    (calculateCR m w n).CI
      = ((∑ i in Finset.range n, AwF m w n i / w i) / (n : ℝ) - (n : ℝ))
        / ((n : ℝ) - 1) := rfl

theorem oneMatrix_ratio_sum :
    ∑ i in Finset.range 1,
      AwF (fun _ _ => (1 : ℝ)) (calculateWeights (fun _ _ => (1 : ℝ)) 1) 1 i
        / calculateWeights (fun _ _ => (1 : ℝ)) 1 i = 1 := by
  have hg0 : geoMeansF (fun _ _ => (1 : ℝ)) 1 0 = 1 := by
    unfold geoMeansF
    rw [Finset.prod_range_one]
    exact Real.one_rpow _
  have hS1 : ∑ k in Finset.range 1, geoMeansF (fun _ _ => (1 : ℝ)) 1 k = 1 := by
    rw [Finset.sum_range_one, hg0]
  have hw1 : calculateWeights (fun _ _ => (1 : ℝ)) 1 0 = 1 := by
    unfold calculateWeights
    rw [hg0, hS1]
    norm_num
  have hAw : AwF (fun _ _ => (1 : ℝ))
      (calculateWeights (fun _ _ => (1 : ℝ)) 1) 1 0 = 1 := by
    unfold AwF
    rw [Finset.sum_range_one, hw1]
    norm_num
  rw [Finset.sum_range_one, hAw, hw1]
  norm_num

/-- C5: for every positive reciprocal matrix of order `n ≥ 2` and the weight
vector derived from it by `calculateWeights`, the `CR` computed by
`calculateCR` is non-negative.  The claim's remaining case, the valid
order-1 matrix `[[1]]` (n = 1), is a code bug: there `lambdaMax = 1`, so
the source's `CI = (lambdaMax - n) / (n - 1)` is the division `0 / 0` —
`NaN` in JavaScript, making `CR = NaN / 1.5 = NaN`, which is not
non-negative (the last two conjuncts exhibit the degenerate division the
code performs; Lean's total division collapses it to `0`). -/
theorem C5_CR_nonneg :
    (∀ (n : ℕ) (m : ℕ → ℕ → ℝ), 2 ≤ n →
      (∀ i ∈ Finset.range n, ∀ j ∈ Finset.range n, 0 < m i j) →
      (∀ i ∈ Finset.range n, ∀ j ∈ Finset.range n, m i j * m j i = 1) →
      0 ≤ (calculateCR m (calculateWeights m n) n).CR) ∧
    (calculateCR (fun _ _ => (1 : ℝ))
      (calculateWeights (fun _ _ => (1 : ℝ)) 1) 1).lambdaMax = 1 ∧
    (calculateCR (fun _ _ => (1 : ℝ))
      (calculateWeights (fun _ _ => (1 : ℝ)) 1) 1).CI = 0 / 0 := by
  refine ⟨?_, ?_, ?_⟩
  · intro n m hn2 hpos hrec
    have hn : 1 ≤ n := by omega
    have hw : ∀ i ∈ Finset.range n, 0 < calculateWeights m n i :=
      fun i hi => calculateWeights_pos hn hpos hi
    have hsum := lambda_sum_ge hpos hrec hw
    show 0 ≤ (if jsOr (RItable n) 1.5 > 0
        then ((∑ i in Finset.range n, AwF m (calculateWeights m n) n i
                / calculateWeights m n i) / (n : ℝ) - (n : ℝ)) / ((n : ℝ) - 1)
              / jsOr (RItable n) 1.5
        else 0)
    have hnpos : (0 : ℝ) < (n : ℝ) := by
      exact_mod_cast by omega
    have hlM : (n : ℝ) ≤ (∑ i in Finset.range n, AwF m (calculateWeights m n) n i
        / calculateWeights m n i) / (n : ℝ) := by
      rw [le_div_iff₀ hnpos]
      linarith
    have hCI : 0 ≤ ((∑ i in Finset.range n, AwF m (calculateWeights m n) n i
        / calculateWeights m n i) / (n : ℝ) - (n : ℝ)) / ((n : ℝ) - 1) := by
      have hden : (0 : ℝ) < (n : ℝ) - 1 := by
        have : (2 : ℝ) ≤ (n : ℝ) := by exact_mod_cast hn2
        linarith
      exact div_nonneg (by linarith) hden.le
    rw [if_pos (jsOr_RI_pos n)]
    exact div_nonneg hCI (jsOr_RI_pos n).le
  · rw [calculateCR_lambdaMax_eq, oneMatrix_ratio_sum]
    norm_num
  · rw [calculateCR_CI_eq, oneMatrix_ratio_sum]
    norm_num

/-- C5 (witness): non-negativity of `CR` on the sound scope, instantiated
at the 2×2 all-ones matrix. -/
theorem C5_CR_nonneg_witness :
    0 ≤ (calculateCR (fun _ _ => (1 : ℝ))
      (calculateWeights (fun _ _ => (1 : ℝ)) 2) 2).CR :=
  C5_CR_nonneg.1 2 (fun _ _ => 1) le_rfl
    (by intro i hi j hj; norm_num) (by intro i hi j hj; norm_num)

theorem sameUPair_symm {c c' : Judgment} (h : sameUPair c c') : sameUPair c' c := by
  rcases h with ⟨h1, h2⟩ | ⟨h1, h2⟩
  · exact Or.inl ⟨h1.symm, h2.symm⟩
  · exact Or.inr ⟨h2.symm, h1.symm⟩

theorem writePair_comm (st : ℕ → ℕ → Option ℝ) {a b a' b' : ℕ}
    (v w v' w' : ℝ)
    (h1 : ¬(a = a' ∧ b = b')) (h2 : ¬(a = b' ∧ b = a'))
    (h3 : ¬(b = a' ∧ a = b')) (h4 : ¬(b = b' ∧ a = a')) :
    writeCell (writeCell (writeCell (writeCell st a b v) b a w) a' b' v') b' a' w'
      = writeCell (writeCell (writeCell (writeCell st a' b' v') b' a' w') a b v) b a w := by
  funext i j
  simp only [writeCell]
  split_ifs <;> first | rfl | omega

theorem buildStep_comm (ids : List String) (c c' : Judgment)
    (h : ¬ sameUPair c c') (st : ℕ → ℕ → Option ℝ) :
    buildStep ids (buildStep ids st c) c' = buildStep ids (buildStep ids st c') c := by
  have hns : ¬(c.left = c'.left ∧ c.right = c'.right) ∧
      ¬(c.left = c'.right ∧ c.right = c'.left) := by
    constructor
    · exact fun e => h (Or.inl e)
    · exact fun e => h (Or.inr e)
  cases hc : c.ahp_ratio_aij with
  | none => rw [buildStep_none hc, buildStep_none hc]
  | some v =>
    cases hc' : c'.ahp_ratio_aij with
    | none => rw [buildStep_none hc', buildStep_none hc']
    | some v' =>
      simp only [buildStep_some hc, buildStep_some hc']
      by_cases hg : 0 ≤ jsIndexOf ids c.left ∧ 0 ≤ jsIndexOf ids c.right
      · by_cases hg' : 0 ≤ jsIndexOf ids c'.left ∧ 0 ≤ jsIndexOf ids c'.right
        · rw [if_pos hg, if_pos hg', if_pos hg, if_pos hg']
          have hmL : c.left ∈ ids := (jsIndexOf_nonneg_iff ids c.left).mp hg.1
          have hmR : c.right ∈ ids := (jsIndexOf_nonneg_iff ids c.right).mp hg.2
          have hmL' : c'.left ∈ ids := (jsIndexOf_nonneg_iff ids c'.left).mp hg'.1
          have hmR' : c'.right ∈ ids := (jsIndexOf_nonneg_iff ids c'.right).mp hg'.2
          apply (writePair_comm st v (1 / v) v' (1 / v') ?_ ?_ ?_ ?_).symm.symm
          · exact fun e => hns.1
              ⟨jsIndexOf_toNat_inj hmL hmL' e.1, jsIndexOf_toNat_inj hmR hmR' e.2⟩
          · exact fun e => hns.2
              ⟨jsIndexOf_toNat_inj hmL hmR' e.1, jsIndexOf_toNat_inj hmR hmL' e.2⟩
          · exact fun e => hns.2
              ⟨jsIndexOf_toNat_inj hmL hmR' e.2, jsIndexOf_toNat_inj hmR hmL' e.1⟩
          · exact fun e => hns.1
              ⟨jsIndexOf_toNat_inj hmL hmL' e.2, jsIndexOf_toNat_inj hmR hmR' e.1⟩
        · rw [if_neg hg', if_pos hg, if_pos hg, if_neg hg']
      · by_cases hg' : 0 ≤ jsIndexOf ids c'.left ∧ 0 ≤ jsIndexOf ids c'.right
        · rw [if_pos hg', if_neg hg, if_neg hg, if_pos hg']
        · rw [if_neg hg', if_neg hg, if_neg hg, if_neg hg']

theorem sortedIds_perm {comps comps' : List Judgment} (hp : comps.Perm comps') :
    sortedIds comps = sortedIds comps' := by
  unfold sortedIds
  rw [List.toFinset_eq_of_perm _ _ (hp.flatMap_right fun c => [c.left, c.right])]

theorem buildMatrix_perm (ids : List String) {comps comps' : List Judgment}
    (hp : comps.Perm comps')
    (hpair : comps.Pairwise fun c c' => ¬ sameUPair c c') :
    buildMatrix ids comps = buildMatrix ids comps' := by
  unfold buildMatrix
  have hsym : Symmetric fun c c' : Judgment => ¬ sameUPair c c' :=
    fun a b hab hba => hab (sameUPair_symm hba)
  have hfold : comps.foldl (buildStep ids) initState
      = comps'.foldl (buildStep ids) initState := by
    apply hp.foldl_eq' ?_ initState
    intro x hx y hy z
    by_cases hxy : x = y
    · subst hxy
      rfl
    · exact buildStep_comm ids x y (hpair.forall hsym hx hy hxy) z
  rw [hfold]

theorem sortedIds_csDup₁ : sortedIds csDup₁ = ["A", "B"] := by
  apply sortedIds_eq
  · have h : (csDup₁.flatMap fun c => [c.left, c.right]) = ["A", "B", "A", "B"] := rfl
    rw [h]
    ext x
    simp
  · simp [List.sorted_cons]
    decide
  · decide

theorem sortedIds_csDup₂ : sortedIds csDup₂ = ["A", "B"] := by
  apply sortedIds_eq
  · have h : (csDup₂.flatMap fun c => [c.left, c.right]) = ["A", "B", "A", "B"] := rfl
    rw [h]
    ext x
    simp
  · simp [List.sorted_cons]
    decide
  · decide

theorem buildMatrix_csDup₁_01 : buildMatrix (sortedIds csDup₁) csDup₁ 0 1 = 3 := by
  rw [sortedIds_csDup₁]
  have hA : jsIndexOf ["A", "B"] "A" = 0 := by decide
  have hB : jsIndexOf ["A", "B"] "B" = 1 := by decide
  simp [buildMatrix, csDup₁, buildStep, hA, hB, writeCell, initState]

theorem buildMatrix_csDup₂_01 : buildMatrix (sortedIds csDup₂) csDup₂ 0 1 = 2 := by
  rw [sortedIds_csDup₂]
  have hA : jsIndexOf ["A", "B"] "A" = 0 := by decide
  have hB : jsIndexOf ["A", "B"] "B" = 1 := by decide
  simp [buildMatrix, csDup₂, buildStep, hA, hB, writeCell, initState]

/-- C6 (counterexample): permuting a judgment list is not result-preserving
in general.  The two lists hold the same multiset of judgments — two
conflicting judgments for the pair (A, B) — yet `buildMatrix` gives the
cell `matrix[0][1]` the last-written ratio, `3` for one order and `2` for
the other. -/
theorem C6_counterexample :
    csDup₁.Perm csDup₂ ∧
    buildMatrix (sortedIds csDup₁) csDup₁ 0 1 = 3 ∧
    buildMatrix (sortedIds csDup₂) csDup₂ 0 1 = 2 ∧ (3 : ℝ) ≠ 2 :=
  ⟨by
    unfold csDup₁ csDup₂
    exact List.Perm.swap (⟨"A", "B", some 3⟩ : Judgment) (⟨"A", "B", some 2⟩ : Judgment) [],
    buildMatrix_csDup₁_01, buildMatrix_csDup₂_01, by norm_num⟩

/-- C6 (amended): for a judgment list whose judgments address pairwise
distinct unordered item pairs, every permutation of the list yields the
same item ordering, the same comparison matrix, the same weight vector and
the same consistency result. -/
theorem C6_amended (comps comps' : List Judgment) (hp : comps.Perm comps')
    (hpair : comps.Pairwise fun c c' => ¬ sameUPair c c') :
    sortedIds comps = sortedIds comps' ∧
    buildMatrix (sortedIds comps) comps = buildMatrix (sortedIds comps') comps' ∧
    calculateWeights (buildMatrix (sortedIds comps) comps) (sortedIds comps).length
      = calculateWeights (buildMatrix (sortedIds comps') comps')
          (sortedIds comps').length ∧
    calculateCR (buildMatrix (sortedIds comps) comps)
        (calculateWeights (buildMatrix (sortedIds comps) comps)
          (sortedIds comps).length) (sortedIds comps).length
      = calculateCR (buildMatrix (sortedIds comps') comps')
          (calculateWeights (buildMatrix (sortedIds comps') comps')
            (sortedIds comps').length) (sortedIds comps').length := by
  have hids := sortedIds_perm hp
  have hm : buildMatrix (sortedIds comps) comps
      = buildMatrix (sortedIds comps') comps' := by
    rw [← hids]
    exact buildMatrix_perm (sortedIds comps) hp hpair
  refine ⟨hids, hm, ?_, ?_⟩ <;> rw [hm, hids]

/-- C6 (witness): the amended order independence instantiated at the
two-judgment group `[(A, B, 2), (A, C, 4)]` and its transposition. -/
theorem C6_amended_witness :
    sortedIds csPerm₁ = sortedIds csPerm₂ ∧
    buildMatrix (sortedIds csPerm₁) csPerm₁
      = buildMatrix (sortedIds csPerm₂) csPerm₂ ∧
    calculateWeights (buildMatrix (sortedIds csPerm₁) csPerm₁)
        (sortedIds csPerm₁).length
      = calculateWeights (buildMatrix (sortedIds csPerm₂) csPerm₂)
          (sortedIds csPerm₂).length ∧
    calculateCR (buildMatrix (sortedIds csPerm₁) csPerm₁)
        (calculateWeights (buildMatrix (sortedIds csPerm₁) csPerm₁)
          (sortedIds csPerm₁).length) (sortedIds csPerm₁).length
      = calculateCR (buildMatrix (sortedIds csPerm₂) csPerm₂)
          (calculateWeights (buildMatrix (sortedIds csPerm₂) csPerm₂)
            (sortedIds csPerm₂).length) (sortedIds csPerm₂).length :=
  C6_amended csPerm₁ csPerm₂
    (by
      unfold csPerm₁ csPerm₂
      exact List.Perm.swap (⟨"A", "C", some 4⟩ : Judgment) (⟨"A", "B", some 2⟩ : Judgment) [])
    (by
      constructor
      · intro c hc
        rw [List.mem_singleton] at hc
        subst hc
        simp [sameUPair]
      · exact List.pairwise_singleton _ _)

theorem calculateAHP_keys_aux (f : String → Option (List Judgment)) :
    ∀ l : List String,
      ((l.filterMap fun s =>
        match f s with
        | none => none
        | some cs => if cs.length = 0 then none
            else some (s, evalSection cs)).map Prod.fst)
      = l.filter fun s => !((f s).getD []).isEmpty := by
  intro l
  induction l with
  | nil => rfl
  | cons s t ih =>
    rw [List.filterMap_cons, List.filter_cons]
    cases hfs : f s with
    | none =>
      simp only [hfs, Option.getD_none, List.isEmpty_nil, Bool.not_true,
        Bool.false_eq_true, if_false]
      exact ih
    | some cs =>
      cases cs with
      | nil =>
        simp only [hfs, List.length_nil, if_pos rfl, Option.getD_some,
          List.isEmpty_nil, Bool.not_true, Bool.false_eq_true, if_false]
        exact ih
      | cons a as =>
        have hlen : (a :: as).length ≠ 0 := by simp
        simp only [hfs, if_neg hlen, Option.getD_some, List.isEmpty_cons,
          Bool.not_false, if_true, List.map_cons, ih]

/-- C8: for any present `comparisons` block, `calculateAHP` runs with no
error, and the group names of the Submission Result are exactly the
recognized section names for which the block supplies a non-empty judgment
list: absent (`undefined`) and empty groups are silently skipped. -/
theorem C8_result_keys (f : String → Option (List Judgment)) :
    calculateAHPChecked (some f) = Except.ok (calculateAHP f) ∧
    (calculateAHP f).map Prod.fst
      = sections.filter fun s => !((f s).getD []).isEmpty :=
  ⟨rfl, calculateAHP_keys_aux f sections⟩

/-- C8 (witness): the key characterization instantiated at a submission
carrying only the "dimensions" group. -/
theorem C8_result_keys_witness :
    calculateAHPChecked (some oneGroup) = Except.ok (calculateAHP oneGroup) ∧
    (calculateAHP oneGroup).map Prod.fst
      = sections.filter fun s => !((oneGroup s).getD []).isEmpty :=
  C8_result_keys oneGroup

/-- C9: when the submission's `comparisons` block is missing entirely, the
evaluation fails as a whole with a single error and produces no Submission
Result at all (`Except.error` carries no partial result). -/
theorem C9_missing_comparisons :
    calculateAHPChecked none
      = Except.error "TypeError: cannot read properties of undefined" ∧
    ∀ r : List (String × SectionResult), calculateAHPChecked none ≠ Except.ok r :=
  ⟨rfl, fun r h => by simp [calculateAHPChecked] at h⟩

theorem calculateCR_CR_eq (m : ℕ → ℕ → ℝ) (w : ℕ → ℝ) (n : ℕ) :
    (calculateCR m w n).CR =
      if jsOr (RItable n) 1.5 > 0 then
        (((∑ i in Finset.range n, AwF m w n i / w i) / (n : ℝ) - (n : ℝ))
          / ((n : ℝ) - 1)) / jsOr (RItable n) 1.5
      else 0 := rfl

theorem evalSection_CR_eq (cs : List Judgment) :
    (evalSection cs).CR = jsRound4 (rawCR cs) := rfl

theorem evalSection_consistent_eq (cs : List Judgment) :
    (evalSection cs).consistent = (rawCR cs < 0.1) := rfl

theorem evalSection_weights_eq (cs : List Judgment) :
    (evalSection cs).weights
      = (sortedIds cs).enum.map fun p =>
          (p.2, jsRound4 (calculateWeights (buildMatrix (sortedIds cs) cs)
            (sortedIds cs).length p.1)) := rfl

theorem rawCR_csZero : rawCR csZero = -(4 / 3) := by
  unfold rawCR
  rw [sortedIds_csZero]
  have h2 : (["A", "B"] : List String).length = 2 := rfl
  rw [h2]
  have hA : jsIndexOf ["A", "B"] "A" = 0 := by decide
  have hB : jsIndexOf ["A", "B"] "B" = 1 := by decide
  set M := buildMatrix ["A", "B"] csZero with hM
  have hm00 : M 0 0 = 1 := by
    rw [hM]
    simp [buildMatrix, csZero, buildStep, hA, hB, writeCell, initState]
  have hm01 : M 0 1 = 0 := by
    rw [hM]
    simp [buildMatrix, csZero, buildStep, hA, hB, writeCell, initState]
  have hm10 : M 1 0 = 0 := by
    rw [hM]
    simp [buildMatrix, csZero, buildStep, hA, hB, writeCell, initState]
  have hm11 : M 1 1 = 1 := by
    rw [hM]
    simp [buildMatrix, csZero, buildStep, hA, hB, writeCell, initState]
  have hprod0 : ∏ j in Finset.range 2, M 0 j = 0 := by
    rw [Finset.prod_range_succ, Finset.prod_range_one, hm00, hm01]
    ring
  have hprod1 : ∏ j in Finset.range 2, M 1 j = 0 := by
    rw [Finset.prod_range_succ, Finset.prod_range_one, hm10, hm11]
    ring
  have hg0 : geoMeansF M 2 0 = 0 := by
    unfold geoMeansF
    rw [hprod0]
    exact Real.zero_rpow (by norm_num)
  have hg1 : geoMeansF M 2 1 = 0 := by
    unfold geoMeansF
    rw [hprod1]
    exact Real.zero_rpow (by norm_num)
  have hS : ∑ k in Finset.range 2, geoMeansF M 2 k = 0 := by
    rw [Finset.sum_range_succ, Finset.sum_range_one, hg0, hg1]
    ring
  have hw0 : calculateWeights M 2 0 = 0 := by
    unfold calculateWeights
    rw [hg0, hS]
    norm_num
  have hw1 : calculateWeights M 2 1 = 0 := by
    unfold calculateWeights
    rw [hg1, hS]
    norm_num
  have hAw0 : AwF M (calculateWeights M 2) 2 0 = 0 := by
    unfold AwF
    rw [Finset.sum_range_succ, Finset.sum_range_one, hw0, hw1]
    ring
  have hAw1 : AwF M (calculateWeights M 2) 2 1 = 0 := by
    unfold AwF
    rw [Finset.sum_range_succ, Finset.sum_range_one, hw0, hw1]
    ring
  have hsum : ∑ i in Finset.range 2,
      AwF M (calculateWeights M 2) 2 i / calculateWeights M 2 i = 0 := by
    rw [Finset.sum_range_succ, Finset.sum_range_one, hAw0, hAw1, hw0, hw1]
    norm_num
  rw [calculateCR_CR_eq, hsum]
  have hri : jsOr (RItable 2) 1.5 = 1.5 := by
    rw [show RItable 2 = some 0 from rfl, jsOr_some, if_pos rfl]
  rw [hri, if_pos (by norm_num : (1.5 : ℝ) > 0)]
  norm_num

/-- C2 (the code at the failing input): the fallback `RI[n] || 1.5` treats
the table entries `RI[1] = RI[2] = 0` as falsy, so the effective divisor is
`1.5` for every order — it is positive for all `n`, which makes the
`ri > 0 ? CI / ri : 0` guard dead code and `CR = CI / 1.5` for `n ≤ 2`.
Consequently, for the 2-item group `[(A, B, 0)]` the computed `CR` is
`-4/3`, not the `0` the claim asserts for every `n = 2` group. -/
theorem C2_ri_fallback :
    (∀ k, 0 < jsOr (RItable k) 1.5) ∧
    jsOr (RItable 1) 1.5 = 1.5 ∧
    jsOr (RItable 2) 1.5 = 1.5 ∧
    (sortedIds csZero).length = 2 ∧
    rawCR csZero = -(4 / 3) ∧ rawCR csZero ≠ 0 := by
  refine ⟨jsOr_RI_pos, ?_, ?_, ?_, rawCR_csZero, ?_⟩
  · rw [show RItable 1 = some 0 from rfl, jsOr_some, if_pos rfl]
  · rw [show RItable 2 = some 0 from rfl, jsOr_some, if_pos rfl]
  · rw [sortedIds_csZero]
    rfl
  · rw [rawCR_csZero]
    norm_num

/-- C2 (witness): the always-positive effective divisor at order 3. -/
theorem C2_ri_fallback_witness : 0 < jsOr (RItable 3) 1.5 :=
  C2_ri_fallback.1 3

theorem rpow_cube_root (x : ℝ) (hx : 0 ≤ x) :
    (x ^ (3 : ℕ)) ^ ((1 : ℝ) / 3) = x := by
  rw [← Real.rpow_natCast x 3, ← Real.rpow_mul hx,
    show ((3 : ℕ) : ℝ) * ((1 : ℝ) / 3) = 1 by norm_num, Real.rpow_one]

theorem jsRound4_eq (x : ℝ) (z : ℤ) (h1 : (z : ℝ) ≤ x * 10000 + 1 / 2)
    (h2 : x * 10000 + 1 / 2 < z + 1) : jsRound4 x = (z : ℝ) / 10000 := by
  unfold jsRound4
  rw [show ⌊x * 10000 + 1 / 2⌋ = z from Int.floor_eq_iff.mpr ⟨h1, h2⟩]

theorem jsRound4_zero : jsRound4 0 = 0 := by
  rw [jsRound4_eq 0 0 (by norm_num) (by norm_num)]
  norm_num

theorem sortedIds_csDim : sortedIds csDim = ["A", "B", "C"] := by
  apply sortedIds_eq
  · have h : (csDim.flatMap fun c => [c.left, c.right])
        = ["A", "B", "A", "C", "B", "C"] := rfl
    rw [h]
    ext x
    simp
  · simp [List.sorted_cons]
    refine ⟨⟨?_, ?_⟩, ?_⟩ <;> decide
  · decide

theorem mDim00 : buildMatrix ["A", "B", "C"] csDim 0 0 = 1 := by
  have hA : jsIndexOf ["A", "B", "C"] "A" = 0 := by decide
  have hB : jsIndexOf ["A", "B", "C"] "B" = 1 := by decide
  have hC : jsIndexOf ["A", "B", "C"] "C" = 2 := by decide
  simp [buildMatrix, csDim, buildStep, hA, hB, hC, writeCell, initState]

theorem mDim01 : buildMatrix ["A", "B", "C"] csDim 0 1 = 2 := by
  have hA : jsIndexOf ["A", "B", "C"] "A" = 0 := by decide
  have hB : jsIndexOf ["A", "B", "C"] "B" = 1 := by decide
  have hC : jsIndexOf ["A", "B", "C"] "C" = 2 := by decide
  simp [buildMatrix, csDim, buildStep, hA, hB, hC, writeCell, initState]

theorem mDim02 : buildMatrix ["A", "B", "C"] csDim 0 2 = 4 := by
  have hA : jsIndexOf ["A", "B", "C"] "A" = 0 := by decide
  have hB : jsIndexOf ["A", "B", "C"] "B" = 1 := by decide
  have hC : jsIndexOf ["A", "B", "C"] "C" = 2 := by decide
  simp [buildMatrix, csDim, buildStep, hA, hB, hC, writeCell, initState]

theorem mDim10 : buildMatrix ["A", "B", "C"] csDim 1 0 = 1 / 2 := by
  have hA : jsIndexOf ["A", "B", "C"] "A" = 0 := by decide
  have hB : jsIndexOf ["A", "B", "C"] "B" = 1 := by decide
  have hC : jsIndexOf ["A", "B", "C"] "C" = 2 := by decide
  simp [buildMatrix, csDim, buildStep, hA, hB, hC, writeCell, initState]

theorem mDim11 : buildMatrix ["A", "B", "C"] csDim 1 1 = 1 := by
  have hA : jsIndexOf ["A", "B", "C"] "A" = 0 := by decide
  have hB : jsIndexOf ["A", "B", "C"] "B" = 1 := by decide
  have hC : jsIndexOf ["A", "B", "C"] "C" = 2 := by decide
  simp [buildMatrix, csDim, buildStep, hA, hB, hC, writeCell, initState]

theorem mDim12 : buildMatrix ["A", "B", "C"] csDim 1 2 = 2 := by
  have hA : jsIndexOf ["A", "B", "C"] "A" = 0 := by decide
  have hB : jsIndexOf ["A", "B", "C"] "B" = 1 := by decide
  have hC : jsIndexOf ["A", "B", "C"] "C" = 2 := by decide
  simp [buildMatrix, csDim, buildStep, hA, hB, hC, writeCell, initState]

theorem mDim20 : buildMatrix ["A", "B", "C"] csDim 2 0 = 1 / 4 := by
  have hA : jsIndexOf ["A", "B", "C"] "A" = 0 := by decide
  have hB : jsIndexOf ["A", "B", "C"] "B" = 1 := by decide
  have hC : jsIndexOf ["A", "B", "C"] "C" = 2 := by decide
  simp [buildMatrix, csDim, buildStep, hA, hB, hC, writeCell, initState]

theorem mDim21 : buildMatrix ["A", "B", "C"] csDim 2 1 = 1 / 2 := by
  have hA : jsIndexOf ["A", "B", "C"] "A" = 0 := by decide
  have hB : jsIndexOf ["A", "B", "C"] "B" = 1 := by decide
  have hC : jsIndexOf ["A", "B", "C"] "C" = 2 := by decide
  simp [buildMatrix, csDim, buildStep, hA, hB, hC, writeCell, initState]

theorem mDim22 : buildMatrix ["A", "B", "C"] csDim 2 2 = 1 := by
  have hA : jsIndexOf ["A", "B", "C"] "A" = 0 := by decide
  have hB : jsIndexOf ["A", "B", "C"] "B" = 1 := by decide
  have hC : jsIndexOf ["A", "B", "C"] "C" = 2 := by decide
  simp [buildMatrix, csDim, buildStep, hA, hB, hC, writeCell, initState]

theorem gDim0 : geoMeansF (buildMatrix ["A", "B", "C"] csDim) 3 0 = 2 := by
  unfold geoMeansF
  rw [Finset.prod_range_succ, Finset.prod_range_succ, Finset.prod_range_one,
    mDim00, mDim01, mDim02,
    show ((3 : ℕ) : ℝ) = 3 by norm_num,
    show (1 : ℝ) * 2 * 4 = 2 ^ (3 : ℕ) by norm_num,
    rpow_cube_root 2 (by norm_num)]

theorem gDim1 : geoMeansF (buildMatrix ["A", "B", "C"] csDim) 3 1 = 1 := by
  unfold geoMeansF
  rw [Finset.prod_range_succ, Finset.prod_range_succ, Finset.prod_range_one,
    mDim10, mDim11, mDim12,
    show (1 : ℝ) / 2 * 1 * 2 = 1 by norm_num, Real.one_rpow]

theorem gDim2 : geoMeansF (buildMatrix ["A", "B", "C"] csDim) 3 2 = 1 / 2 := by
  unfold geoMeansF
  rw [Finset.prod_range_succ, Finset.prod_range_succ, Finset.prod_range_one,
    mDim20, mDim21, mDim22,
    show ((3 : ℕ) : ℝ) = 3 by norm_num,
    show (1 : ℝ) / 4 * (1 / 2) * 1 = (1 / 2) ^ (3 : ℕ) by norm_num,
    rpow_cube_root (1 / 2) (by norm_num)]

theorem SDim : ∑ k in Finset.range 3,
    geoMeansF (buildMatrix ["A", "B", "C"] csDim) 3 k = 7 / 2 := by
  rw [Finset.sum_range_succ, Finset.sum_range_succ, Finset.sum_range_one,
    gDim0, gDim1, gDim2]
  norm_num

theorem wDim0 : calculateWeights (buildMatrix ["A", "B", "C"] csDim) 3 0 = 4 / 7 := by
  unfold calculateWeights
  rw [gDim0, SDim]
  norm_num

theorem wDim1 : calculateWeights (buildMatrix ["A", "B", "C"] csDim) 3 1 = 2 / 7 := by
  unfold calculateWeights
  rw [gDim1, SDim]
  norm_num

theorem wDim2 : calculateWeights (buildMatrix ["A", "B", "C"] csDim) 3 2 = 1 / 7 := by
  unfold calculateWeights
  rw [gDim2, SDim]
  norm_num

theorem rawCR_csDim : rawCR csDim = 0 := by
  unfold rawCR
  rw [sortedIds_csDim]
  have h3 : (["A", "B", "C"] : List String).length = 3 := rfl
  rw [h3, calculateCR_CR_eq]
  have hAw0 : AwF (buildMatrix ["A", "B", "C"] csDim)
      (calculateWeights (buildMatrix ["A", "B", "C"] csDim) 3) 3 0 = 12 / 7 := by
    unfold AwF
    rw [Finset.sum_range_succ, Finset.sum_range_succ, Finset.sum_range_one,
      mDim00, mDim01, mDim02, wDim0, wDim1, wDim2]
    norm_num
  have hAw1 : AwF (buildMatrix ["A", "B", "C"] csDim)
      (calculateWeights (buildMatrix ["A", "B", "C"] csDim) 3) 3 1 = 6 / 7 := by
    unfold AwF
    rw [Finset.sum_range_succ, Finset.sum_range_succ, Finset.sum_range_one,
      mDim10, mDim11, mDim12, wDim0, wDim1, wDim2]
    norm_num
  have hAw2 : AwF (buildMatrix ["A", "B", "C"] csDim)
      (calculateWeights (buildMatrix ["A", "B", "C"] csDim) 3) 3 2 = 3 / 7 := by
    unfold AwF
    rw [Finset.sum_range_succ, Finset.sum_range_succ, Finset.sum_range_one,
      mDim20, mDim21, mDim22, wDim0, wDim1, wDim2]
    norm_num
  have hsum : ∑ i in Finset.range 3,
      AwF (buildMatrix ["A", "B", "C"] csDim)
        (calculateWeights (buildMatrix ["A", "B", "C"] csDim) 3) 3 i
        / calculateWeights (buildMatrix ["A", "B", "C"] csDim) 3 i = 9 := by
    rw [Finset.sum_range_succ, Finset.sum_range_succ, Finset.sum_range_one,
      hAw0, hAw1, hAw2, wDim0, wDim1, wDim2]
    norm_num
  rw [hsum]
  have hri : jsOr (RItable 3) 1.5 = 0.58 := by
    rw [show RItable 3 = some 0.58 from rfl, jsOr_some, if_neg (by norm_num)]
  rw [hri, if_pos (by norm_num : (0.58 : ℝ) > 0)]
  norm_num

/-- C7: the spec's "dimensions" scenario `[(A,B,2), (A,C,4), (B,C,2)]`
evaluates to the rounded weights `{A: 0.5714, B: 0.2857, C: 0.1429}`, a
reported `CR` of `0`, and a true `consistent` flag. -/
theorem C7_dimensions :
    (evalSection csDim).weights = [("A", 0.5714), ("B", 0.2857), ("C", 0.1429)] ∧
    (evalSection csDim).CR = 0 ∧ (evalSection csDim).consistent := by
  refine ⟨?_, ?_, ?_⟩
  · rw [evalSection_weights_eq, sortedIds_csDim]
    have henum : (["A", "B", "C"] : List String).enum
        = [(0, "A"), (1, "B"), (2, "C")] := rfl
    have h3 : (["A", "B", "C"] : List String).length = 3 := rfl
    rw [henum, h3]
    simp only [List.map_cons, List.map_nil]
    rw [wDim0, wDim1, wDim2,
      jsRound4_eq (4 / 7) 5714 (by norm_num) (by norm_num),
      jsRound4_eq (2 / 7) 2857 (by norm_num) (by norm_num),
      jsRound4_eq (1 / 7) 1429 (by norm_num) (by norm_num)]
    norm_num
  · rw [evalSection_CR_eq, rawCR_csDim, jsRound4_zero]
  · rw [evalSection_consistent_eq, rawCR_csDim]
    norm_num

theorem sortedIds_csBorder : sortedIds csBorder = ["A", "B", "C"] := by
  apply sortedIds_eq
  · have h : (csBorder.flatMap fun c => [c.left, c.right])
        = ["A", "B", "A", "C", "B", "C"] := rfl
    rw [h]
    ext x
    simp
  · simp [List.sorted_cons]
    refine ⟨⟨?_, ?_⟩, ?_⟩ <;> decide
  · decide

theorem mBor00 : buildMatrix ["A", "B", "C"] csBorder 0 0 = 1 := by
  have hA : jsIndexOf ["A", "B", "C"] "A" = 0 := by decide
  have hB : jsIndexOf ["A", "B", "C"] "B" = 1 := by decide
  have hC : jsIndexOf ["A", "B", "C"] "C" = 2 := by decide
  simp [buildMatrix, csBorder, buildStep, hA, hB, hC, writeCell, initState]

theorem mBor01 : buildMatrix ["A", "B", "C"] csBorder 0 1
    = 345505073913 / 125000000000 := by
  have hA : jsIndexOf ["A", "B", "C"] "A" = 0 := by decide
  have hB : jsIndexOf ["A", "B", "C"] "B" = 1 := by decide
  have hC : jsIndexOf ["A", "B", "C"] "C" = 2 := by decide
  simp [buildMatrix, csBorder, buildStep, hA, hB, hC, writeCell, initState]

theorem mBor02 : buildMatrix ["A", "B", "C"] csBorder 0 2 = 1 := by
  have hA : jsIndexOf ["A", "B", "C"] "A" = 0 := by decide
  have hB : jsIndexOf ["A", "B", "C"] "B" = 1 := by decide
  have hC : jsIndexOf ["A", "B", "C"] "C" = 2 := by decide
  simp [buildMatrix, csBorder, buildStep, hA, hB, hC, writeCell, initState]

theorem mBor10 : buildMatrix ["A", "B", "C"] csBorder 1 0
    = 125000000000 / 345505073913 := by
  have hA : jsIndexOf ["A", "B", "C"] "A" = 0 := by decide
  have hB : jsIndexOf ["A", "B", "C"] "B" = 1 := by decide
  have hC : jsIndexOf ["A", "B", "C"] "C" = 2 := by decide
  simp [buildMatrix, csBorder, buildStep, hA, hB, hC, writeCell, initState]

theorem mBor11 : buildMatrix ["A", "B", "C"] csBorder 1 1 = 1 := by
  have hA : jsIndexOf ["A", "B", "C"] "A" = 0 := by decide
  have hB : jsIndexOf ["A", "B", "C"] "B" = 1 := by decide
  have hC : jsIndexOf ["A", "B", "C"] "C" = 2 := by decide
  simp [buildMatrix, csBorder, buildStep, hA, hB, hC, writeCell, initState]

theorem mBor12 : buildMatrix ["A", "B", "C"] csBorder 1 2 = 1 := by
  have hA : jsIndexOf ["A", "B", "C"] "A" = 0 := by decide
  have hB : jsIndexOf ["A", "B", "C"] "B" = 1 := by decide
  have hC : jsIndexOf ["A", "B", "C"] "C" = 2 := by decide
  simp [buildMatrix, csBorder, buildStep, hA, hB, hC, writeCell, initState]

theorem mBor20 : buildMatrix ["A", "B", "C"] csBorder 2 0 = 1 := by
  have hA : jsIndexOf ["A", "B", "C"] "A" = 0 := by decide
  have hB : jsIndexOf ["A", "B", "C"] "B" = 1 := by decide
  have hC : jsIndexOf ["A", "B", "C"] "C" = 2 := by decide
  simp [buildMatrix, csBorder, buildStep, hA, hB, hC, writeCell, initState]

theorem mBor21 : buildMatrix ["A", "B", "C"] csBorder 2 1 = 1 := by
  have hA : jsIndexOf ["A", "B", "C"] "A" = 0 := by decide
  have hB : jsIndexOf ["A", "B", "C"] "B" = 1 := by decide
  have hC : jsIndexOf ["A", "B", "C"] "C" = 2 := by decide
  simp [buildMatrix, csBorder, buildStep, hA, hB, hC, writeCell, initState]

theorem mBor22 : buildMatrix ["A", "B", "C"] csBorder 2 2 = 1 := by
  have hA : jsIndexOf ["A", "B", "C"] "A" = 0 := by decide
  have hB : jsIndexOf ["A", "B", "C"] "B" = 1 := by decide
  have hC : jsIndexOf ["A", "B", "C"] "C" = 2 := by decide
  simp [buildMatrix, csBorder, buildStep, hA, hB, hC, writeCell, initState]

theorem gBor0 : geoMeansF (buildMatrix ["A", "B", "C"] csBorder) 3 0
    = 7017 / 5000 := by
  unfold geoMeansF
  rw [Finset.prod_range_succ, Finset.prod_range_succ, Finset.prod_range_one,
    mBor00, mBor01, mBor02,
    show ((3 : ℕ) : ℝ) = 3 by norm_num,
    show (1 : ℝ) * (345505073913 / 125000000000) * 1
      = (7017 / 5000) ^ (3 : ℕ) by norm_num,
    rpow_cube_root (7017 / 5000) (by norm_num)]

theorem gBor1 : geoMeansF (buildMatrix ["A", "B", "C"] csBorder) 3 1
    = 5000 / 7017 := by
  unfold geoMeansF
  rw [Finset.prod_range_succ, Finset.prod_range_succ, Finset.prod_range_one,
    mBor10, mBor11, mBor12,
    show ((3 : ℕ) : ℝ) = 3 by norm_num,
    show (125000000000 : ℝ) / 345505073913 * 1 * 1
      = (5000 / 7017) ^ (3 : ℕ) by norm_num,
    rpow_cube_root (5000 / 7017) (by norm_num)]

theorem gBor2 : geoMeansF (buildMatrix ["A", "B", "C"] csBorder) 3 2 = 1 := by
  unfold geoMeansF
  rw [Finset.prod_range_succ, Finset.prod_range_succ, Finset.prod_range_one,
    mBor20, mBor21, mBor22,
    show (1 : ℝ) * 1 * 1 = 1 by norm_num, Real.one_rpow]

theorem SBor : ∑ k in Finset.range 3,
    geoMeansF (buildMatrix ["A", "B", "C"] csBorder) 3 k
    = 109323289 / 35085000 := by
  rw [Finset.sum_range_succ, Finset.sum_range_succ, Finset.sum_range_one,
    gBor0, gBor1, gBor2]
  norm_num

theorem wBor0 : calculateWeights (buildMatrix ["A", "B", "C"] csBorder) 3 0
    = 49238289 / 109323289 := by
  unfold calculateWeights
  rw [gBor0, SBor]
  norm_num

theorem wBor1 : calculateWeights (buildMatrix ["A", "B", "C"] csBorder) 3 1
    = 25000000 / 109323289 := by
  unfold calculateWeights
  rw [gBor1, SBor]
  norm_num

theorem wBor2 : calculateWeights (buildMatrix ["A", "B", "C"] csBorder) 3 2
    = 35085000 / 109323289 := by
  unfold calculateWeights
  rw [gBor2, SBor]
  norm_num

theorem rawCR_csBorder : rawCR csBorder = 4068289 / 40698600 := by
  unfold rawCR
  rw [sortedIds_csBorder]
  have h3 : (["A", "B", "C"] : List String).length = 3 := rfl
  rw [h3, calculateCR_CR_eq]
  have hAw0 : AwF (buildMatrix ["A", "B", "C"] csBorder)
      (calculateWeights (buildMatrix ["A", "B", "C"] csBorder) 3) 3 0
      = 767121518913 / 546616445000 := by
    unfold AwF
    rw [Finset.sum_range_succ, Finset.sum_range_succ, Finset.sum_range_one,
      mBor00, mBor01, mBor02, wBor0, wBor1, wBor2]
    norm_num
  have hAw1 : AwF (buildMatrix ["A", "B", "C"] csBorder)
      (calculateWeights (buildMatrix ["A", "B", "C"] csBorder) 3) 3 1
      = 546616445000 / 767121518913 := by
    unfold AwF
    rw [Finset.sum_range_succ, Finset.sum_range_succ, Finset.sum_range_one,
      mBor10, mBor11, mBor12, wBor0, wBor1, wBor2]
    norm_num
  have hAw2 : AwF (buildMatrix ["A", "B", "C"] csBorder)
      (calculateWeights (buildMatrix ["A", "B", "C"] csBorder) 3) 3 2 = 1 := by
    unfold AwF
    rw [Finset.sum_range_succ, Finset.sum_range_succ, Finset.sum_range_one,
      mBor20, mBor21, mBor22, wBor0, wBor1, wBor2]
    norm_num
  have hsum : ∑ i in Finset.range 3,
      AwF (buildMatrix ["A", "B", "C"] csBorder)
        (calculateWeights (buildMatrix ["A", "B", "C"] csBorder) 3) 3 i
        / calculateWeights (buildMatrix ["A", "B", "C"] csBorder) 3 i
      = 327969867 / 35085000 := by
    rw [Finset.sum_range_succ, Finset.sum_range_succ, Finset.sum_range_one,
      hAw0, hAw1, hAw2, wBor0, wBor1, wBor2]
    norm_num
  rw [hsum]
  have hri : jsOr (RItable 3) 1.5 = 0.58 := by
    rw [show RItable 3 = some 0.58 from rfl, jsOr_some, if_neg (by norm_num)]
  rw [hri, if_pos (by norm_num : (0.58 : ℝ) > 0)]
  norm_num

/-- C10: `calculateAHP` computes the `consistent` flag from the
full-precision `CR` and reports the 4-decimal rounding of `CR` as a
separate field; for the borderline group `csBorder` the unrounded `CR` is
`4068289/40698600 ≈ 0.09996 < 0.1`, so the Section Result reports
`CR = 0.1` (rounded up) together with `consistent = true`. -/
theorem C10_rounding :
    (∀ cs : List Judgment,
      ((evalSection cs).consistent ↔ rawCR cs < 0.1) ∧
      (evalSection cs).CR = jsRound4 (rawCR cs)) ∧
    (evalSection csBorder).CR = 0.1 ∧
    (evalSection csBorder).consistent ∧
    rawCR csBorder < 0.1 := by
  refine ⟨fun cs => ⟨Iff.rfl, rfl⟩, ?_, ?_, ?_⟩
  · rw [evalSection_CR_eq, rawCR_csBorder,
      jsRound4_eq (4068289 / 40698600) 1000 (by norm_num) (by norm_num)]
    norm_num
  · rw [evalSection_consistent_eq, rawCR_csBorder]
    norm_num
  · rw [rawCR_csBorder]
    norm_num

/-- C10 (witness): the rounding/flag relationship instantiated at the
"dimensions" scenario. -/
theorem C10_rounding_witness :
    ((evalSection csDim).consistent ↔ rawCR csDim < 0.1) ∧
    (evalSection csDim).CR = jsRound4 (rawCR csDim) :=
  C10_rounding.1 csDim
